import Mathlib

/-!
Shallow embedding of the novelWriter theme layer (nw/gui/theme.py):
the GuiTheme class (palette and syntax colour loading, theme listing)
and the GuiIcons class (icon theme map, icon resolution with fallback
chain, icon cache).  File system access, the Qt toolkit and the INI
parser are abstracted as environment records: a read of a config file
yields either a parsed section/option table or none (an exception),
and file existence tests are boolean oracles.
-/

/-- Association list lookup with string keys, first match wins, mirroring
Python dict key lookup for the dictionaries used in theme.py. -/
def alookup {α : Type} : List (String × α) → String → Option α
  | [], _ => none
  | (k, v) :: rest, key => if k = key then some v else alookup rest key

/-- Association list update, mirroring Python dict item assignment:
replace the value under an existing key, append a new key at the end. -/
def dinsert {α : Type} : List (String × α) → String → α → List (String × α)
  | [], k, v => [(k, v)]
  | (k0, v0) :: rest, k, v =>
      if k0 = k then (k, v) :: rest else (k0, v0) :: dinsert rest k v

/-- Parsed contents of a ConfigParser: sections in order, each a list of
option/value pairs. -/
abbrev ConfigData := List (String × List (String × String))

/-- ConfigParser.has_section. -/
def hasSection (cfg : ConfigData) (sec : String) : Bool :=
  (alookup cfg sec).isSome

/-- ConfigParser.has_option. -/
def hasOption (cfg : ConfigData) (sec name : String) : Bool :=
  match alookup cfg sec with
  | some opts => (alookup opts name).isSome
  | none => false

/-- ConfigParser.get, only called by the source after has_option checks. -/
def getOpt (cfg : ConfigData) (sec name : String) : String :=
  match alookup cfg sec with
  | some opts => (alookup opts name).getD ""
  | none => ""

/-- ConfigParser.items for a section. -/
def itemsOf (cfg : ConfigData) (sec : String) : List (String × String) :=
  (alookup cfg sec).getD []

/-- Create a section if absent, as ConfigParser does on seeing a section
header during read_file. -/
def ensureSection (cfg : ConfigData) (sec : String) : ConfigData :=
  if (alookup cfg sec).isSome then cfg else cfg ++ [(sec, [])]

/-- Set one option in one section of the parser state. -/
def setConfigOpt : ConfigData → String → String → String → ConfigData
  | [], sec, k, v => [(sec, [(k, v)])]
  | (s0, opts) :: rest, sec, k, v =>
      if s0 = sec then (s0, dinsert opts k v) :: rest
      else (s0, opts) :: setConfigOpt rest sec k v

/-- ConfigParser.read_file on a parser that already holds data: the new
data is merged into the existing state, section by section and option by
option; options absent from the new file keep their previous values. -/
def mergeConfig (old nd : ConfigData) : ConfigData :=
  nd.foldl
    (fun acc sec =>
      sec.2.foldl (fun a kv => setConfigOpt a sec.1 kv.1 kv.2)
        (ensureSection acc sec.1))
    old

/-- Python os.path.join for the two-argument calls in theme.py. -/
def pjoin (a b : String) : String := a ++ "/" ++ b

/-- Python str.split on a single separator character, over the character
list of the string: every separator occurrence starts a new group, and
the empty string yields one empty group. -/
def splitChars (sep : Char) : List Char → List (List Char)
  | [] => [[]]
  | c :: cs =>
      match splitChars sep cs with
      | [] => [[]]
      | grp :: rest =>
          if c = sep then [] :: grp :: rest else (c :: grp) :: rest

/-- Whitespace for the purposes of the int() conversion. -/
def isWs (c : Char) : Bool :=
  c = ' ' || c = '\t' || c = '\n' || c = '\r'

/-- Python str.strip: drop whitespace at both ends. -/
def pyStrip (l : List Char) : List Char :=
  ((l.dropWhile isWs).reverse.dropWhile isWs).reverse

/-- Digit run conversion: a nonempty all-digit list to its value. -/
def digitsToNat (l : List Char) : Option Nat :=
  if l.isEmpty then none
  else if l.all Char.isDigit then
    some (l.foldl (fun a c => a * 10 + (c.toNat - 48)) 0)
  else none

/-- Python int() applied to a string: strip surrounding whitespace, allow
one leading sign, then require a nonempty run of digits. -/
def pyInt (s : String) : Option Int :=
  match pyStrip s.data with
  | '-' :: rest => (digitsToNat rest).map (fun n => -(n : Int))
  | '+' :: rest => (digitsToNat rest).map (fun n => (n : Int))
  | t => (digitsToNat t).map (fun n => (n : Int))

/-- The shared shape of the colour parsing in _loadColour and _setPalette:
split the value on commas and convert the first three components with
int(); any missing component (IndexError) or unparsable component
(ValueError) raises, which both callers catch. -/
def parseTriple (v : String) : Option (Int × Int × Int) :=
  match (splitChars ',' v.data).map (fun l => String.mk l) with
  | a :: b :: c :: _ =>
      match pyInt a, pyInt b, pyInt c with
      | some x, some y, some z => some (x, y, z)
      | _, _, _ => none
  | _ => none

/-- Handle to a loaded icon resource, distinguishing the four sources a
QIcon can come from in theme.py plus the empty icon QIcon(). -/
inductive QIconH where
  | empty : QIconH
  | fromFile (filePath : String) : QIconH
  | standardIcon (styleId : String) : QIconH
  | themeIcon (iconName : String) : QIconH
deriving Repr, DecidableEq

/-- GuiIcons.ICON_MAP: the fixed icon catalog, each key with an optional
QStyle standard icon id and an optional freedesktop icon theme name. -/
def ICON_MAP : List (String × (Option String × Option String)) := [
  ("cls_none",       (some "SP_DriveHDIcon",         some "drive-harddisk")),
  ("cls_novel",      (some "SP_DriveHDIcon",         some "drive-harddisk")),
  ("cls_plot",       (some "SP_DriveHDIcon",         some "drive-harddisk")),
  ("cls_character",  (some "SP_DriveHDIcon",         some "drive-harddisk")),
  ("cls_world",      (some "SP_DriveHDIcon",         some "drive-harddisk")),
  ("cls_timeline",   (some "SP_DriveHDIcon",         some "drive-harddisk")),
  ("cls_object",     (some "SP_DriveHDIcon",         some "drive-harddisk")),
  ("cls_entity",     (some "SP_DriveHDIcon",         some "drive-harddisk")),
  ("cls_custom",     (some "SP_DriveHDIcon",         some "drive-harddisk")),
  ("cls_trash",      (some "SP_DriveHDIcon",         some "drive-harddisk")),
  ("proj_document",  (some "SP_FileIcon",            some "x-office-document")),
  ("proj_folder",    (some "SP_DirIcon",             some "folder")),
  ("proj_nwx",       (none,                          none)),
  ("status_lang",    (none,                          none)),
  ("status_time",    (none,                          none)),
  ("status_stats",   (none,                          none)),
  ("folder-open",    (some "SP_DirOpenIcon",         some "folder-open")),
  ("delete",         (some "SP_DialogDiscardButton", some "edit-delete")),
  ("add",            (none,                          some "list-add")),
  ("remove",         (none,                          some "list-remove")),
  ("close",          (some "SP_DialogCloseButton",   some "window-close")),
  ("done",           (some "SP_DialogApplyButton",   none)),
  ("search",         (none,                          some "edit-find")),
  ("search-replace", (none,                          some "edit-find-replace")),
  ("clear",          (some "SP_LineEditClearButton", some "clear_left")),
  ("save",           (some "SP_DialogSaveButton",    some "document-save")),
  ("edit",           (none,                          none)),
  ("check",          (none,                          none)),
  ("cross",          (none,                          none)),
  ("hash",           (none,                          none)),
  ("warning",        (some "SP_MessageBoxWarning",   some "dialog-warning"))
]

/-- Mutable state of a GuiIcons object. -/
structure GuiIconsState where
  qIcons : List (String × QIconH)
  themeMap : List (String × String)
  themeList : List (String × String)
  themeName : String
  themeDescription : String
  themeAuthor : String
  themeCredit : String
  themeUrl : String
  themeLicense : String
  themeLicenseUrl : String
  iconPath : Option String
  confFile : Option String
deriving Repr, DecidableEq

/-- GuiIcons.__init__: empty cache, empty theme map, empty metadata. -/
def initIcons : GuiIconsState :=
  { qIcons := [], themeMap := [], themeList := [],
    themeName := "", themeDescription := "", themeAuthor := "",
    themeCredit := "", themeUrl := "", themeLicense := "",
    themeLicenseUrl := "", iconPath := none, confFile := none }

/-- Environment seen by GuiIcons: the relevant mainConf fields, file
system oracles, config reading, and the Qt icon theme oracle. -/
structure IconEnv where
  iconPath : String
  guiIcons : String
  guiDark : Bool
  isDir : String → Bool
  isFile : String → Bool
  readConf : String → Option ConfigData
  hasThemeIcon : String → Bool

/-- The _parseLine helper shared by GuiTheme and GuiIcons: return the
option value when both section and option exist, else the default. -/
def parseLine (cfg : ConfigData) (sec name dflt : String) : String :=
  if hasSection cfg sec then
    if hasOption cfg sec name then getOpt cfg sec name else dflt
  else dflt

/-- The Map section loop of GuiIcons.updateTheme: keys outside ICON_MAP
are rejected, referenced files that do not exist are rejected, accepted
entries are stored as key to absolute path. -/
def buildThemeMap (isFile : String → Bool) (base : String)
    (entries : List (String × String)) : List (String × String) :=
  entries.foldl
    (fun acc e =>
      if (alookup ICON_MAP e.1).isSome then
        let p := pjoin base e.2
        if isFile p then dinsert acc e.1 p else acc
      else acc)
    []

namespace GuiIcons

/-- GuiIcons.updateTheme: clears themeMap first, then checks the theme
directory, reads icons.conf, loads the Main metadata and the Map
section.  Returns False on a missing directory or an unreadable config
file.  Note that the cache qIcons is never touched. -/
def updateTheme (env : IconEnv) (s : GuiIconsState) : Bool × GuiIconsState :=
  let s1 := { s with themeMap := [] }
  let checkPath := pjoin env.iconPath env.guiIcons
  if env.isDir checkPath then
    let s2 := { s1 with iconPath := some checkPath,
                        confFile := some (pjoin checkPath "icons.conf") }
    match env.readConf (pjoin checkPath "icons.conf") with
    | none => (false, s2)
    | some conf =>
        let s3 :=
          if hasSection conf "Main" then
            { s2 with
              themeName := parseLine conf "Main" "name" "",
              themeDescription := parseLine conf "Main" "description" "",
              themeAuthor := parseLine conf "Main" "author" "",
              themeCredit := parseLine conf "Main" "credit" "",
              themeUrl := parseLine conf "Main" "url" "",
              themeLicense := parseLine conf "Main" "license" "",
              themeLicenseUrl := parseLine conf "Main" "licenseurl" "" }
          else s2
        let s4 :=
          if hasSection conf "Map" then
            { s3 with themeMap :=
                buildThemeMap env.isFile checkPath (itemsOf conf "Map") }
          else s3
        (true, s4)
  else (false, s1)

/-- GuiIcons._loadIcon: the fallback chain, translated branch by branch
from the source. -/
def loadIcon (env : IconEnv) (themeMap : List (String × String))
    (iconKey : String) : QIconH :=
  match alookup ICON_MAP iconKey with
  | none => QIconH.empty
  | some entry =>
      match alookup themeMap iconKey with
      | some p => QIconH.fromFile p
      | none =>
          match entry.1 with
          | some sp => QIconH.standardIcon sp
          | none =>
              match entry.2 with
              | some nm =>
                  if env.hasThemeIcon nm then QIconH.themeIcon nm
                  else loadIconFallback env iconKey
              | none => loadIconFallback env iconKey
where
  /-- The tail of _loadIcon: the bundled fallback folder lookup. -/
  loadIconFallback (env : IconEnv) (iconKey : String) : QIconH :=
    let darkIcon := pjoin (pjoin env.iconPath "fallback") (iconKey ++ "-dark.svg")
    if env.guiDark && env.isFile darkIcon then QIconH.fromFile darkIcon
    else
      let fbackIcon := pjoin (pjoin env.iconPath "fallback") (iconKey ++ ".svg")
      if env.isFile fbackIcon then QIconH.fromFile fbackIcon
      else QIconH.empty

/-- GuiIcons.getIcon: serve from the qIcons buffer when present,
otherwise resolve with _loadIcon and cache the result, whatever it is. -/
def getIcon (env : IconEnv) (s : GuiIconsState) (iconKey : String) :
    QIconH × GuiIconsState :=
  match alookup s.qIcons iconKey with
  | some ic => (ic, s)
  | none =>
      let ic := loadIcon env s.themeMap iconKey
      (ic, { s with qIcons := dinsert s.qIcons iconKey ic })

end GuiIcons

/-- Modelled from the words of the specification, for comparison with
the source resolver: the per-step strategies of the documented priority
order, each returning an optional result.  Step two, the theme map. -/
def specThemeMap (themeMap : List (String × String)) (key : String) :
    Option QIconH :=
  (alookup themeMap key).map QIconH.fromFile

/-- Spec step three: the platform standard icon, when declared. -/
def specStandardIcon (key : String) : Option QIconH :=
  (alookup ICON_MAP key).bind (fun e => e.1.map QIconH.standardIcon)

/-- Spec step four: the freedesktop theme icon, when declared and
present in the platform icon theme. -/
def specPlatformTheme (env : IconEnv) (key : String) : Option QIconH :=
  (alookup ICON_MAP key).bind (fun e =>
    e.2.bind (fun nm =>
      if env.hasThemeIcon nm then some (QIconH.themeIcon nm) else none))

/-- Spec step five: the bundled fallback file, dark variant first when
dark mode is active, then the light variant regardless of mode. -/
def specFallbackFile (env : IconEnv) (key : String) : Option QIconH :=
  let darkIcon := pjoin (pjoin env.iconPath "fallback") (key ++ "-dark.svg")
  let lightIcon := pjoin (pjoin env.iconPath "fallback") (key ++ ".svg")
  if env.guiDark && env.isFile darkIcon then some (QIconH.fromFile darkIcon)
  else if env.isFile lightIcon then some (QIconH.fromFile lightIcon)
  else none

/-- First non-empty result of an ordered list of strategy outcomes. -/
def firstSome : List (Option QIconH) → Option QIconH
  | [] => none
  | some x :: _ => some x
  | none :: rest => firstSome rest

/-- Modelled from the spec: the documented resolution algorithm as an
ordered sequence of strategy checks, first non-empty result wins, empty
handle when all miss. -/
def resolveIconSpec (env : IconEnv) (themeMap : List (String × String))
    (key : String) : QIconH :=
  (firstSome
    [specThemeMap themeMap key, specStandardIcon key,
     specPlatformTheme env key, specFallbackFile env key]).getD QIconH.empty

/-- Mutable state of a GuiTheme object: loaded theme metadata, GUI
colours, syntax metadata and colours, the palette, and the two cached
listing results. -/
structure GuiThemeState where
  themeName : String
  themeDescription : String
  themeAuthor : String
  themeCredit : String
  themeUrl : String
  themeLicense : String
  themeLicenseUrl : String
  treeWCount : List Int
  statNone : List Int
  statUnsaved : List Int
  statSaved : List Int
  helpText : List Int
  syntaxName : String
  syntaxDescription : String
  syntaxAuthor : String
  syntaxCredit : String
  syntaxUrl : String
  syntaxLicense : String
  syntaxLicenseUrl : String
  colBack : List Int
  colText : List Int
  colLink : List Int
  colHead : List Int
  colHeadH : List Int
  colEmph : List Int
  colDialN : List Int
  colDialD : List Int
  colDialS : List Int
  colComm : List Int
  colKey : List Int
  colVal : List Int
  colSpell : List Int
  colTagErr : List Int
  colRepTag : List Int
  colMod : List Int
  guiPalette : List (String × List Int)
  themeList : List (String × String)
  syntaxList : List (String × String)
deriving Repr, DecidableEq

/-- GuiTheme.__init__: the default colours and empty metadata. -/
def initTheme : GuiThemeState :=
  { themeName := "", themeDescription := "", themeAuthor := "",
    themeCredit := "", themeUrl := "", themeLicense := "",
    themeLicenseUrl := "",
    treeWCount := [0, 0, 0], statNone := [120, 120, 120],
    statUnsaved := [120, 120, 40], statSaved := [40, 120, 0],
    helpText := [0, 0, 0],
    syntaxName := "", syntaxDescription := "", syntaxAuthor := "",
    syntaxCredit := "", syntaxUrl := "", syntaxLicense := "",
    syntaxLicenseUrl := "",
    colBack := [255, 255, 255], colText := [0, 0, 0], colLink := [0, 0, 0],
    colHead := [0, 0, 0], colHeadH := [0, 0, 0], colEmph := [0, 0, 0],
    colDialN := [0, 0, 0], colDialD := [0, 0, 0], colDialS := [0, 0, 0],
    colComm := [0, 0, 0], colKey := [0, 0, 0], colVal := [0, 0, 0],
    colSpell := [0, 0, 0], colTagErr := [0, 0, 0], colRepTag := [0, 0, 0],
    colMod := [0, 0, 0],
    guiPalette := [], themeList := [], syntaxList := [] }

/-- GuiTheme._loadColour: split the option value on commas, convert the
first three components with int(); any failure, or a missing option,
yields exactly the triple zero, zero, zero. -/
def loadColour (cfg : ConfigData) (sec name : String) : List Int :=
  if hasOption cfg sec name then
    match parseTriple (getOpt cfg sec name) with
    | some (x, y, z) => [x, y, z]
    | none => [0, 0, 0]
  else [0, 0, 0]

/-- GuiTheme._setPalette: set the palette colour for a role only when
the option exists and all three components parse; otherwise the palette
is left untouched. -/
def setPaletteColour (cfg : ConfigData) (sec name role : String)
    (pal : List (String × List Int)) : List (String × List Int) :=
  if hasOption cfg sec name then
    match parseTriple (getOpt cfg sec name) with
    | some (x, y, z) => dinsert pal role [x, y, z]
    | none => pal
  else pal

/-- The palette roles set by the Palette section of loadTheme, in source
order; the config option name doubles as the role identifier. -/
def PALETTE_ROLES : List String :=
  ["window", "windowtext", "base", "alternatebase", "text",
   "tooltipbase", "tooltiptext", "button", "buttontext", "brighttext",
   "highlight", "highlightedtext", "link", "linkvisited"]

/-- The fourteen _setPalette calls of the Palette section. -/
def applyPalette (cfg : ConfigData) (pal : List (String × List Int)) :
    List (String × List Int) :=
  PALETTE_ROLES.foldl (fun p role => setPaletteColour cfg "Palette" role role p) pal

/-- The Main section of loadTheme: seven metadata fields via _parseLine. -/
def applyThemeMain (cfg : ConfigData) (s : GuiThemeState) : GuiThemeState :=
  if hasSection cfg "Main" then
    { s with
      themeName := parseLine cfg "Main" "name" "",
      themeDescription := parseLine cfg "Main" "description" "",
      themeAuthor := parseLine cfg "Main" "author" "",
      themeCredit := parseLine cfg "Main" "credit" "",
      themeUrl := parseLine cfg "Main" "url" "",
      themeLicense := parseLine cfg "Main" "license" "",
      themeLicenseUrl := parseLine cfg "Main" "licenseurl" "" }
  else s

/-- The Palette section of loadTheme. -/
def applyThemePalette (cfg : ConfigData) (s : GuiThemeState) : GuiThemeState :=
  if hasSection cfg "Palette" then
    { s with guiPalette := applyPalette cfg s.guiPalette }
  else s

/-- The GUI section of loadTheme: four colours via _loadColour. -/
def applyThemeGui (cfg : ConfigData) (s : GuiThemeState) : GuiThemeState :=
  if hasSection cfg "GUI" then
    { s with
      treeWCount := loadColour cfg "GUI" "treewordcount",
      statNone := loadColour cfg "GUI" "statusnone",
      statUnsaved := loadColour cfg "GUI" "statusunsaved",
      statSaved := loadColour cfg "GUI" "statussaved" }
  else s

/-- Environment seen by GuiTheme.loadTheme: whether the css file exists,
the outcome of reading it (none models a raised exception), and the
outcome of parsing theme.conf. -/
structure ThemeLoadEnv where
  cssIsFile : Bool
  cssData : Option String
  confData : Option ConfigData

/-- GuiTheme.loadTheme: a css read failure or a config parse failure
returns False before any state is changed; on success the Main, Palette
and GUI sections are applied in order. -/
def loadTheme (env : ThemeLoadEnv) (s : GuiThemeState) : Bool × GuiThemeState :=
  match (if env.cssIsFile then env.cssData else some "") with
  | none => (false, s)
  | some _cssData =>
      match env.confData with
      | none => (false, s)
      | some conf =>
          (true, applyThemeGui conf (applyThemePalette conf (applyThemeMain conf s)))

/-- The Main section of loadSyntax: seven metadata fields. -/
def applySyntaxMain (cfg : ConfigData) (s : GuiThemeState) : GuiThemeState :=
  if hasSection cfg "Main" then
    { s with
      syntaxName := parseLine cfg "Main" "name" "",
      syntaxDescription := parseLine cfg "Main" "description" "",
      syntaxAuthor := parseLine cfg "Main" "author" "",
      syntaxCredit := parseLine cfg "Main" "credit" "",
      syntaxUrl := parseLine cfg "Main" "url" "",
      syntaxLicense := parseLine cfg "Main" "license" "",
      syntaxLicenseUrl := parseLine cfg "Main" "licenseurl" "" }
  else s

/-- The Syntax section of loadSyntax: sixteen colours via _loadColour. -/
def applySyntaxColours (cfg : ConfigData) (s : GuiThemeState) : GuiThemeState :=
  if hasSection cfg "Syntax" then
    { s with
      colBack := loadColour cfg "Syntax" "background",
      colText := loadColour cfg "Syntax" "text",
      colLink := loadColour cfg "Syntax" "link",
      colHead := loadColour cfg "Syntax" "headertext",
      colHeadH := loadColour cfg "Syntax" "headertag",
      colEmph := loadColour cfg "Syntax" "emphasis",
      colDialN := loadColour cfg "Syntax" "straightquotes",
      colDialD := loadColour cfg "Syntax" "doublequotes",
      colDialS := loadColour cfg "Syntax" "singlequotes",
      colComm := loadColour cfg "Syntax" "hidden",
      colKey := loadColour cfg "Syntax" "keyword",
      colVal := loadColour cfg "Syntax" "value",
      colSpell := loadColour cfg "Syntax" "spellcheckline",
      colTagErr := loadColour cfg "Syntax" "tagerror",
      colRepTag := loadColour cfg "Syntax" "replacetag",
      colMod := loadColour cfg "Syntax" "modifier" }
  else s

/-- GuiTheme.loadSyntax: a config parse failure returns False before
any state is changed; on success the Main and Syntax sections are
applied in order. -/
def loadSyntaxConf (confData : Option ConfigData) (s : GuiThemeState) :
    Bool × GuiThemeState :=
  match confData with
  | none => (false, s)
  | some conf => (true, applySyntaxColours conf (applySyntaxMain conf s))

/-- Lexicographic comparison of character lists by code point, the
order Python uses when comparing strings. -/
def charListLe : List Char → List Char → Bool
  | [], _ => true
  | _ :: _, [] => false
  | a :: as, b :: bs =>
      if a.toNat < b.toNat then true
      else if b.toNat < a.toNat then false
      else charListLe as bs

/-- String comparison by code points. -/
def strNameLe (a b : String) : Bool := charListLe a.data b.data

/-- Stable insertion into a list sorted ascending by the display name
component, matching the key function of the sorted calls in theme.py. -/
def insertSorted (x : String × String) :
    List (String × String) → List (String × String)
  | [] => [x]
  | y :: ys => if strNameLe x.2 y.2 then x :: y :: ys else y :: insertSorted x ys

/-- Python sorted with key display name (stable ascending sort). -/
def sortByName (l : List (String × String)) : List (String × String) :=
  l.foldr insertSorted []

/-- The scan loop of GuiTheme.listThemes.  The single ConfigParser
instance is threaded through the whole loop, so each read_file merges
into the data accumulated from earlier candidates.  A read failure
raises an alert and skips to the next candidate.  Returns the gathered
entries and the number of alerts raised. -/
def scanThemeDirs : ConfigData → List (String × Option ConfigData) →
    List (String × String) → Nat → (List (String × String) × Nat)
  | _, [], acc, alerts => (acc, alerts)
  | cp, (dir, confResult) :: rest, acc, alerts =>
      match confResult with
      | none => scanThemeDirs cp rest acc (alerts + 1)
      | some nd =>
          let cp2 := mergeConfig cp nd
          let nm :=
            if hasSection cp2 "Main" && hasOption cp2 "Main" "name" then
              getOpt cp2 "Main" "name"
            else ""
          if nm ≠ "" then scanThemeDirs cp2 rest (acc ++ [(dir, nm)]) alerts
          else scanThemeDirs cp2 rest acc alerts

/-- GuiTheme.listThemes: return the cached list when nonempty, else scan
all candidate directories, sort by display name and cache the result.
The environment supplies, per directory entry, the outcome of reading
its theme.conf. -/
def listThemesGui (dirs : List (String × Option ConfigData))
    (s : GuiThemeState) : (List (String × String) × Nat) × GuiThemeState :=
  if s.themeList.isEmpty then
    let scanned := scanThemeDirs [] dirs s.themeList 0
    let sortedL := sortByName scanned.1
    ((sortedL, scanned.2), { s with themeList := sortedL })
  else ((s.themeList, 0), s)

/-- The scan loop of GuiTheme.listSyntax.  Non-files are skipped; a read
failure raises an alert and makes the whole call return the empty list
at once.  The first component of the result is true when the scan was
aborted. -/
def scanSyntaxFiles : ConfigData → List (String × Bool × Option ConfigData) →
    List (String × String) → Nat → (Bool × List (String × String) × Nat)
  | _, [], acc, alerts => (false, acc, alerts)
  | cp, (file, isF, confResult) :: rest, acc, alerts =>
      if isF then
        match confResult with
        | none => (true, acc, alerts + 1)
        | some nd =>
            let cp2 := mergeConfig cp nd
            let nm :=
              if hasSection cp2 "Main" && hasOption cp2 "Main" "name" then
                getOpt cp2 "Main" "name"
              else ""
            if file.length > 5 && nm ≠ "" then
              scanSyntaxFiles cp2 rest
                (acc ++ [(String.mk (file.data.take (file.data.length - 5)), nm)]) alerts
            else scanSyntaxFiles cp2 rest acc alerts
      else scanSyntaxFiles cp rest acc alerts

/-- GuiTheme.listSyntax: return the cached list when nonempty, else scan
the syntax directory entries; on an aborted scan the call returns the
empty list while the entries gathered so far stay in the state field. -/
def listSyntaxSchemes (files : List (String × Bool × Option ConfigData))
    (s : GuiThemeState) : (List (String × String) × Nat) × GuiThemeState :=
  if s.syntaxList.isEmpty then
    match scanSyntaxFiles [] files s.syntaxList 0 with
    | (true, acc, alerts) => (([], alerts), { s with syntaxList := acc })
    | (false, acc, alerts) =>
        let sortedL := sortByName acc
        ((sortedL, alerts), { s with syntaxList := sortedL })
  else ((s.syntaxList, 0), s)

/-- Python int() truncation toward zero, applied to a rational. -/
def pytrunc (q : ℚ) : Int := if 0 ≤ q then Int.floor q else Int.ceil q

/-- The dependent colour computation at the end of GuiTheme.updateTheme:
the blended lightness of the help text, from the window background
lightness and the window text lightness. -/
def helpLightness (backL textL : ℚ) : ℚ :=
  if backL > textL then textL + (65 / 100) * (backL - textL)
  else backL + (65 / 100) * (textL - backL)

/-- The helpText assignment of GuiTheme.updateTheme: the scaled blended
lightness, repeated on all three channels. -/
def helpTextColour (backL textL : ℚ) : List Int :=
  List.replicate 3 (pytrunc (255 * helpLightness backL textL))

/-- Modelled from the words of the specification: the help text gray
level is the 65 percent blend toward the foreground from whichever of
background and foreground is darker. -/
def specHelpLum (lb lt : ℚ) : ℚ :=
  if lb ≤ lt then lb + (65 / 100) * (lt - lb)
  else lt + (65 / 100) * (lb - lt)

/-- Icon theme one: maps the key add to the file add.svg, which exists. -/
def c1env1 : IconEnv :=
  { iconPath := "/icons", guiIcons := "theme1", guiDark := false,
    isDir := fun p => p == "/icons/theme1",
    isFile := fun p => p == "/icons/theme1/add.svg",
    readConf := fun p =>
      if p == "/icons/theme1/icons.conf"
      then some [("Map", [("add", "add.svg")])] else none,
    hasThemeIcon := fun _ => false }

/-- Icon theme two: maps the same key add to a different existing file. -/
def c1env2 : IconEnv :=
  { iconPath := "/icons", guiIcons := "theme2", guiDark := false,
    isDir := fun p => p == "/icons/theme2",
    isFile := fun p => p == "/icons/theme2/add2.svg",
    readConf := fun p =>
      if p == "/icons/theme2/icons.conf"
      then some [("Map", [("add", "add2.svg")])] else none,
    hasThemeIcon := fun _ => false }

/-- State after loading icon theme one. -/
def c1afterFirst : GuiIconsState := (GuiIcons.updateTheme c1env1 initIcons).2

/-- Resolving the key add under icon theme one fills the cache. -/
def c1resolved : QIconH × GuiIconsState :=
  GuiIcons.getIcon c1env1 c1afterFirst "add"

/-- State after switching to icon theme two with the key still cached. -/
def c1afterSwitch : GuiIconsState :=
  (GuiIcons.updateTheme c1env2 c1resolved.2).2

/-- A GuiIcons state with one previously resolved icon in the cache. -/
def c1wState : GuiIconsState :=
  { initIcons with qIcons := [("add", QIconH.fromFile "/old/add.svg")] }

/-- An environment in which every lookup misses. -/
def c2env : IconEnv :=
  { iconPath := "/icons", guiIcons := "t", guiDark := false,
    isDir := fun _ => false, isFile := fun _ => false,
    readConf := fun _ => none, hasThemeIcon := fun _ => false }

/-- A GuiIcons state holding a previously loaded theme map. -/
def c3IconState : GuiIconsState :=
  { initIcons with themeMap := [("add", "/old/add.svg")] }

/-- An icon environment whose selected theme directory does not exist. -/
def c3IconEnv : IconEnv :=
  { iconPath := "/icons", guiIcons := "missing", guiDark := false,
    isDir := fun _ => false, isFile := fun _ => false,
    readConf := fun _ => none, hasThemeIcon := fun _ => false }

/-- A theme load environment whose css file exists but cannot be read. -/
def c3ThemeEnv : ThemeLoadEnv :=
  { cssIsFile := true, cssData := none, confData := some [] }

/-- An icon environment where every file exists and the platform has no
theme icons; used for the priority scenario. -/
def c4env : IconEnv :=
  { iconPath := "/icons", guiIcons := "t", guiDark := false,
    isDir := fun _ => true, isFile := fun _ => true,
    readConf := fun _ => none, hasThemeIcon := fun _ => false }

/-- A GuiIcons state whose theme map points the key save, which also
declares a platform standard icon, at an existing file. -/
def c4state : GuiIconsState :=
  { initIcons with themeMap := [("save", "/th/save.svg")] }

/-- A syntax config whose background colour has four components. -/
def c5conf : ConfigData := [("Syntax", [("background", "1,2,3,4")])]

/-- A syntax config whose background colour has an unparsable third
component. -/
def c5wconf : ConfigData := [("Syntax", [("background", "10,20,x")])]

/-- A syntax config with a channel value beyond 255. -/
def c6conf : ConfigData := [("Syntax", [("background", "300,0,0")])]

/-- A well-formed syntax config for the C6 witness. -/
def c6wconf : ConfigData := [("Syntax", [("background", "10,20,30")])]

/-- A theme load environment that succeeds with the C6 witness config. -/
def c6wenv : ThemeLoadEnv :=
  { cssIsFile := false, cssData := some "", confData := some c6wconf }

/-- Three scanned GUI theme directories: the first has a display name,
the second has a Main section without a name option, the third has a
display name again. -/
def c8dirs : List (String × Option ConfigData) := [
  ("atheme", some [("Main", [("name", "Alpha")])]),
  ("btheme", some [("Main", [("description", "no name option here")])]),
  ("ctheme", some [("Main", [("name", "Gamma")])])]

/-- A syntax directory scan in which the second candidate file fails to
read after a first valid candidate. -/
def c10files : List (String × Bool × Option ConfigData) :=
  [("default.conf", true, some [("Main", [("name", "Default")])]),
   ("broken.conf", true, none)]

/-- A GUI theme directory scan with the same failing candidate placed
between two valid ones. -/
def c10dirs : List (String × Option ConfigData) :=
  [("atheme", some [("Main", [("name", "Alpha")])]),
   ("broken", none),
   ("ctheme", some [("Main", [("name", "Gamma")])])]

/-- All colour triples held in a GuiTheme state have exactly three
integer channels: the twenty-one scalar colour fields and every palette
entry. -/
def TriplesOk (s : GuiThemeState) : Prop :=
  s.treeWCount.length = 3 ∧ s.statNone.length = 3 ∧ s.statUnsaved.length = 3 ∧
  s.statSaved.length = 3 ∧ s.helpText.length = 3 ∧
  s.colBack.length = 3 ∧ s.colText.length = 3 ∧ s.colLink.length = 3 ∧
  s.colHead.length = 3 ∧ s.colHeadH.length = 3 ∧ s.colEmph.length = 3 ∧
  s.colDialN.length = 3 ∧ s.colDialD.length = 3 ∧ s.colDialS.length = 3 ∧
  s.colComm.length = 3 ∧ s.colKey.length = 3 ∧ s.colVal.length = 3 ∧
  s.colSpell.length = 3 ∧ s.colTagErr.length = 3 ∧ s.colRepTag.length = 3 ∧
  s.colMod.length = 3 ∧ ∀ p ∈ s.guiPalette, p.2.length = 3

/-- Looking up the key just inserted by dinsert yields the new value. -/
theorem alookup_dinsert {α : Type} (l : List (String × α)) (k : String) (v : α) :
    alookup (dinsert l k v) k = some v := by
  induction l with
  | nil => simp [dinsert, alookup]
  | cons hd tl ih =>
      obtain ⟨k0, v0⟩ := hd
      by_cases hk : k0 = k
      · simp [dinsert, alookup, hk]
      · simp [dinsert, alookup, hk, ih]

/-- GuiIcons.updateTheme never touches the resolution cache qIcons. -/
theorem updateTheme_qIcons (env : IconEnv) (s : GuiIconsState) :
    (GuiIcons.updateTheme env s).2.qIcons = s.qIcons := by
  unfold GuiIcons.updateTheme
  dsimp only
  split
  · split
    · rfl
    · dsimp only
      split <;> split <;> rfl
  · rfl

/-- C1 (amended): GuiIcons.updateTheme rebuilds the theme map but does
not clear the icon cache; a key resolved before the call is still served
its previously cached handle by getIcon afterwards, under any new
environment. -/
theorem c1_cache_survives_updateTheme (env env2 : IconEnv) (s : GuiIconsState)
    (key : String) (ic : QIconH) (h : alookup s.qIcons key = some ic) :
    (GuiIcons.updateTheme env s).2.qIcons = s.qIcons ∧
    (GuiIcons.getIcon env2 (GuiIcons.updateTheme env s).2 key).1 = ic := by
  refine ⟨updateTheme_qIcons env s, ?_⟩
  unfold GuiIcons.getIcon
  rw [updateTheme_qIcons env s, h]

/-- Witness for C1: with the key add cached, switching the icon theme
leaves the cache as it was and getIcon still returns the old handle. -/
theorem c1_witness :
    (GuiIcons.updateTheme c1env2 c1wState).2.qIcons = c1wState.qIcons ∧
    (GuiIcons.getIcon c1env2 (GuiIcons.updateTheme c1env2 c1wState).2 "add").1 =
      QIconH.fromFile "/old/add.svg" :=
  c1_cache_survives_updateTheme c1env2 c1env2 c1wState "add"
    (QIconH.fromFile "/old/add.svg") (by decide)

/-- Counterexample for C1 as stated: after resolving add under icon
theme one and then switching to icon theme two, the resolution cache is
not empty, the new theme map points add at a different existing file,
yet getIcon returns the handle loaded from the old file while a fresh
resolution would return the new one. -/
theorem c1_counterexample :
    c1afterSwitch.qIcons = [("add", QIconH.fromFile "/icons/theme1/add.svg")] ∧
    alookup c1afterSwitch.themeMap "add" = some "/icons/theme2/add2.svg" ∧
    (GuiIcons.getIcon c1env2 c1afterSwitch "add").1 =
      QIconH.fromFile "/icons/theme1/add.svg" ∧
    GuiIcons.loadIcon c1env2 c1afterSwitch.themeMap "add" =
      QIconH.fromFile "/icons/theme2/add2.svg" := by decide

/-- C2 (amended): for a key outside ICON_MAP and not yet cached, getIcon
returns the empty handle, but it also stores that empty handle in the
cache, so the cache does hold an entry for the key afterwards. -/
theorem c2_unknown_key_cached (env : IconEnv) (s : GuiIconsState) (key : String)
    (hcat : alookup ICON_MAP key = none) (hc : alookup s.qIcons key = none) :
    (GuiIcons.getIcon env s key).1 = QIconH.empty ∧
    alookup (GuiIcons.getIcon env s key).2.qIcons key = some QIconH.empty := by
  have hl : GuiIcons.loadIcon env s.themeMap key = QIconH.empty := by
    unfold GuiIcons.loadIcon
    rw [hcat]
  unfold GuiIcons.getIcon
  rw [hc]
  dsimp only
  rw [hl]
  exact ⟨rfl, alookup_dinsert s.qIcons key QIconH.empty⟩

/-- Witness for C2: a concrete unknown key on a fresh state. -/
theorem c2_witness :
    (GuiIcons.getIcon c2env initIcons "no_such_icon").1 = QIconH.empty ∧
    alookup (GuiIcons.getIcon c2env initIcons "no_such_icon").2.qIcons
      "no_such_icon" = some QIconH.empty :=
  c2_unknown_key_cached c2env initIcons "no_such_icon" (by decide) rfl

/-- Counterexample for C2 as stated: after requesting an unknown key the
cache is no longer empty and does hold an entry for that key. -/
theorem c2_counterexample :
    alookup ICON_MAP "no_such_icon" = none ∧
    (GuiIcons.getIcon c2env initIcons "no_such_icon").2.qIcons ≠ [] ∧
    alookup (GuiIcons.getIcon c2env initIcons "no_such_icon").2.qIcons
      "no_such_icon" ≠ none := by decide

/-- After any getIcon call the returned handle is in the cache under the
requested key. -/
theorem getIcon_cached (env : IconEnv) (s : GuiIconsState) (key : String) :
    alookup (GuiIcons.getIcon env s key).2.qIcons key =
      some (GuiIcons.getIcon env s key).1 := by
  rcases h : alookup s.qIcons key with _ | ic
  · unfold GuiIcons.getIcon
    rw [h]
    exact alookup_dinsert _ _ _
  · unfold GuiIcons.getIcon
    rw [h]
    exact h

/-- A getIcon call on a key already in the cache returns the cached
handle and leaves the state unchanged. -/
theorem getIcon_hit (env : IconEnv) (s : GuiIconsState) (key : String)
    (ic : QIconH) (h : alookup s.qIcons key = some ic) :
    GuiIcons.getIcon env s key = (ic, s) := by
  unfold GuiIcons.getIcon
  rw [h]

/-- C9: two getIcon calls for the same key with no intervening
updateTheme return the same handle, and the second call leaves the state
exactly as the first left it. -/
theorem c9_getIcon_idempotent (env : IconEnv) (s : GuiIconsState) (key : String) :
    (GuiIcons.getIcon env (GuiIcons.getIcon env s key).2 key).1 =
      (GuiIcons.getIcon env s key).1 ∧
    (GuiIcons.getIcon env (GuiIcons.getIcon env s key).2 key).2 =
      (GuiIcons.getIcon env s key).2 := by
  rw [getIcon_hit env (GuiIcons.getIcon env s key).2 key
    (GuiIcons.getIcon env s key).1 (getIcon_cached env s key)]
  exact ⟨rfl, rfl⟩

/-- C3 (amended): loadTheme and loadSyntax leave the whole prior state
untouched when they fail on a missing or unreadable file or a config
parse failure; GuiIcons.updateTheme, however, clears the icon theme map
before validating anything, so on failure the previously loaded map is
empty, while the cache and the metadata fields keep their old values. -/
theorem c3_failed_load_state (envT : ThemeLoadEnv) (sT : GuiThemeState)
    (cS : Option ConfigData) (sS : GuiThemeState)
    (envI : IconEnv) (sI : GuiIconsState) :
    ((loadTheme envT sT).1 = false → (loadTheme envT sT).2 = sT) ∧
    ((loadSyntaxConf cS sS).1 = false → (loadSyntaxConf cS sS).2 = sS) ∧
    ((GuiIcons.updateTheme envI sI).1 = false →
      (GuiIcons.updateTheme envI sI).2.themeMap = [] ∧
      (GuiIcons.updateTheme envI sI).2.qIcons = sI.qIcons ∧
      (GuiIcons.updateTheme envI sI).2.themeName = sI.themeName ∧
      (GuiIcons.updateTheme envI sI).2.themeDescription = sI.themeDescription ∧
      (GuiIcons.updateTheme envI sI).2.themeAuthor = sI.themeAuthor ∧
      (GuiIcons.updateTheme envI sI).2.themeCredit = sI.themeCredit ∧
      (GuiIcons.updateTheme envI sI).2.themeUrl = sI.themeUrl ∧
      (GuiIcons.updateTheme envI sI).2.themeLicense = sI.themeLicense ∧
      (GuiIcons.updateTheme envI sI).2.themeLicenseUrl = sI.themeLicenseUrl) := by
  refine ⟨?_, ?_, ?_⟩
  · unfold loadTheme
    split
    · intro _; rfl
    · split
      · intro _; rfl
      · intro hfalse; exact absurd hfalse (by simp)
  · unfold loadSyntaxConf
    split
    · intro _; rfl
    · intro hfalse; exact absurd hfalse (by simp)
  · unfold GuiIcons.updateTheme
    dsimp only
    split
    · split
      · intro _
        exact ⟨rfl, rfl, rfl, rfl, rfl, rfl, rfl, rfl, rfl⟩
      · dsimp only
        intro hfalse
        exact absurd hfalse (by simp)
    · intro _
      exact ⟨rfl, rfl, rfl, rfl, rfl, rfl, rfl, rfl, rfl⟩

/-- Witness for C3 at concrete failing loads: an unreadable css file, a
missing syntax config, and a missing icon theme directory. -/
theorem c3_witness :
    (loadTheme c3ThemeEnv initTheme).2 = initTheme ∧
    (loadSyntaxConf none initTheme).2 = initTheme ∧
    (GuiIcons.updateTheme c3IconEnv c3IconState).2.qIcons = c3IconState.qIcons :=
  ⟨(c3_failed_load_state c3ThemeEnv initTheme none initTheme c3IconEnv
      c3IconState).1 rfl,
   (c3_failed_load_state c3ThemeEnv initTheme none initTheme c3IconEnv
      c3IconState).2.1 rfl,
   ((c3_failed_load_state c3ThemeEnv initTheme none initTheme c3IconEnv
      c3IconState).2.2 rfl).2.1⟩

/-- Counterexample for C3 as stated: with a previously loaded icon theme
map, updateTheme on a missing theme directory reports failure yet the
previously loaded map is gone. -/
theorem c3_counterexample :
    (GuiIcons.updateTheme c3IconEnv c3IconState).1 = false ∧
    c3IconState.themeMap = [("add", "/old/add.svg")] ∧
    (GuiIcons.updateTheme c3IconEnv c3IconState).2.themeMap = [] := by decide

/-- A single strategy outcome is its own first non-empty result. -/
theorem firstSome_single (o : Option QIconH) : firstSome [o] = o := by
  cases o <;> rfl

/-- The fallback folder tail of _loadIcon agrees with the spec step for
the bundled fallback file. -/
theorem loadIconFallback_eq (env : IconEnv) (key : String) :
    GuiIcons.loadIcon.loadIconFallback env key =
      (specFallbackFile env key).getD QIconH.empty := by
  unfold GuiIcons.loadIcon.loadIconFallback specFallbackFile
  dsimp only
  split_ifs <;> rfl

/-- For every catalog key, _loadIcon computes exactly the documented
priority chain: theme map, then platform standard icon, then platform
theme icon, then bundled fallback, then the empty handle. -/
theorem loadIcon_eq_resolveIconSpec (env : IconEnv)
    (tm : List (String × String)) (key : String)
    (h : (alookup ICON_MAP key).isSome = true) :
    GuiIcons.loadIcon env tm key = resolveIconSpec env tm key := by
  rcases hm : alookup ICON_MAP key with _ | entry
  · rw [hm] at h; exact absurd h (by simp)
  · obtain ⟨sp, nm⟩ := entry
    unfold GuiIcons.loadIcon resolveIconSpec specThemeMap specStandardIcon
      specPlatformTheme specFallbackFile firstSome
    rw [hm]
    rcases htm : alookup tm key with _ | f
    · rcases sp with _ | spId
      · rcases nm with _ | nmId
        · simp [firstSome, firstSome_single, loadIconFallback_eq, specFallbackFile]
        · by_cases hti : env.hasThemeIcon nmId
          · simp [firstSome, hti]
          · simp [firstSome, firstSome_single, hti, loadIconFallback_eq,
              specFallbackFile]
      · simp [firstSome]
    · simp [firstSome]

/-- C4: for every catalog key, getIcon first serves the cache, and
otherwise resolves by the documented fixed priority order; in
particular, with the key uncached and present in the active theme map,
the handle is backed by the mapped file, declared platform fallbacks
notwithstanding. -/
theorem c4_resolution_priority (env : IconEnv) (s : GuiIconsState)
    (key : String) (hcat : (alookup ICON_MAP key).isSome = true) :
    ((GuiIcons.getIcon env s key).1 =
      match alookup s.qIcons key with
      | some ic => ic
      | none => resolveIconSpec env s.themeMap key) ∧
    (∀ f, alookup s.themeMap key = some f → alookup s.qIcons key = none →
      (GuiIcons.getIcon env s key).1 = QIconH.fromFile f) := by
  constructor
  · rcases hc : alookup s.qIcons key with _ | ic
    · unfold GuiIcons.getIcon
      rw [hc]
      exact loadIcon_eq_resolveIconSpec env s.themeMap key hcat
    · unfold GuiIcons.getIcon
      rw [hc]
  · intro f hf hc
    obtain ⟨entry, hm⟩ := Option.isSome_iff_exists.mp hcat
    unfold GuiIcons.getIcon
    rw [hc]
    dsimp only
    unfold GuiIcons.loadIcon
    rw [hm, hf]

/-- Witness for C4: the key save declares a platform standard icon, yet
with the theme map pointing it at an existing file the resolved handle
is backed by that file. -/
theorem c4_witness :
    (alookup ICON_MAP "save").isSome = true ∧
    (alookup ICON_MAP "save").bind (fun e => e.1) = some "SP_DialogSaveButton" ∧
    (GuiIcons.getIcon c4env c4state "save").1 = QIconH.fromFile "/th/save.svg" :=
  ⟨by decide, by decide,
   (c4_resolution_priority c4env c4state "save" (by decide)).2
     "/th/save.svg" rfl rfl⟩

/-- C5 (amended): a colour entry is malformed when the option is
missing, when fewer than three comma separated components are present,
or when one of the first three components does not convert with int();
such entries load as exactly the triple zero, zero, zero in _loadColour
and leave the palette untouched in _setPalette.  Components after the
third are ignored, so the first three integers are loaded verbatim
whenever they all convert.  The surrounding load still reports success
whatever the colour values. -/
theorem c5_malformed_colour (cfg : ConfigData) (sec name role : String)
    (pal : List (String × List Int)) (s : GuiThemeState) :
    (hasOption cfg sec name = false → loadColour cfg sec name = [0, 0, 0]) ∧
    (parseTriple (getOpt cfg sec name) = none →
      loadColour cfg sec name = [0, 0, 0]) ∧
    (∀ x y z : Int, hasOption cfg sec name = true →
      parseTriple (getOpt cfg sec name) = some (x, y, z) →
      loadColour cfg sec name = [x, y, z]) ∧
    (parseTriple (getOpt cfg sec name) = none →
      setPaletteColour cfg sec name role pal = pal) ∧
    (loadSyntaxConf (some cfg) s).1 = true := by
  refine ⟨?_, ?_, ?_, ?_, rfl⟩
  · intro h
    simp [loadColour, h]
  · intro h
    unfold loadColour
    split
    · rw [h]
    · rfl
  · intro x y z hopt h
    unfold loadColour
    rw [if_pos hopt, h]
  · intro h
    unfold setPaletteColour
    split
    · rw [h]
    · rfl

/-- Witness for C5: an unparsable third component loads as the zero
triple while the syntax load still succeeds. -/
theorem c5_witness :
    loadColour c5wconf "Syntax" "background" = [0, 0, 0] ∧
    (loadSyntaxConf (some c5wconf) initTheme).1 = true :=
  ⟨(c5_malformed_colour c5wconf "Syntax" "background" "background" []
      initTheme).2.1 (by decide),
   (c5_malformed_colour c5wconf "Syntax" "background" "background" []
      initTheme).2.2.2.2⟩

/-- Counterexample for C5 as stated: a colour value with four components
has the wrong arity, yet _loadColour returns the first three integers
rather than the zero triple. -/
theorem c5_counterexample :
    ((splitChars ',' ("1,2,3,4").data).map (fun l => String.mk l)).length = 4 ∧
    loadColour c5conf "Syntax" "background" = [1, 2, 3] ∧
    loadColour c5conf "Syntax" "background" ≠ [0, 0, 0] ∧
    (loadSyntaxConf (some c5conf) initTheme).1 = true := by decide

/-- The colour parser always produces a list of exactly three
integers. -/
theorem loadColour_length (cfg : ConfigData) (sec name : String) :
    (loadColour cfg sec name).length = 3 := by
  unfold loadColour
  split
  · split <;> rfl
  · rfl

/-- Inserting a three-channel triple preserves the palette shape. -/
theorem dinsert_triples (pal : List (String × List Int)) (k : String)
    (v : List Int) (hp : ∀ p ∈ pal, p.2.length = 3) (hv : v.length = 3) :
    ∀ p ∈ dinsert pal k v, p.2.length = 3 := by
  induction pal with
  | nil =>
      intro p hmem
      simp [dinsert] at hmem
      rw [hmem]
      exact hv
  | cons hd tl ih =>
      obtain ⟨k0, v0⟩ := hd
      intro p hmem
      by_cases hk : k0 = k
      · simp only [dinsert, if_pos hk] at hmem
        rcases List.mem_cons.mp hmem with h1 | h2
        · rw [h1]; exact hv
        · exact hp p (List.mem_cons_of_mem _ h2)
      · simp only [dinsert, if_neg hk] at hmem
        rcases List.mem_cons.mp hmem with h1 | h2
        · rw [h1]; exact hp (k0, v0) (List.mem_cons_self _ _)
        · exact ih (fun q hq => hp q (List.mem_cons_of_mem _ hq)) p h2

/-- One _setPalette call preserves the palette shape. -/
theorem setPaletteColour_triples (cfg : ConfigData) (sec name role : String)
    (pal : List (String × List Int)) (hp : ∀ p ∈ pal, p.2.length = 3) :
    ∀ p ∈ setPaletteColour cfg sec name role pal, p.2.length = 3 := by
  unfold setPaletteColour
  split
  · split
    · exact dinsert_triples pal role _ hp rfl
    · exact hp
  · exact hp

/-- The whole Palette section loop preserves the palette shape. -/
theorem foldl_setPalette_triples (cfg : ConfigData) (roles : List String) :
    ∀ pal, (∀ p ∈ pal, p.2.length = 3) →
      ∀ p ∈ roles.foldl
        (fun p role => setPaletteColour cfg "Palette" role role p) pal,
        p.2.length = 3 := by
  induction roles with
  | nil => intro pal hp; simpa using hp
  | cons r rs ih =>
      intro pal hp
      simp only [List.foldl_cons]
      exact ih _ (setPaletteColour_triples cfg "Palette" r r pal hp)

/-- C6 (amended): each loaded triple consists of exactly three integers
and malformed input degrades to the zero triple, but the channel values
are taken verbatim from the config with no clamping, so a successful
load can hold channels outside the zero to two hundred and fifty-five
range.  Both loads preserve the three-channel shape of every stored
triple. -/
theorem c6_triples (envT : ThemeLoadEnv) (cS : Option ConfigData)
    (s : GuiThemeState) (h : TriplesOk s) :
    TriplesOk (loadTheme envT s).2 ∧ TriplesOk (loadSyntaxConf cS s).2 := by
  constructor
  · unfold loadTheme
    split
    · exact h
    · split
      · exact h
      · dsimp only
        rename_i conf _
        have h1 : TriplesOk (applyThemeMain conf s) := by
          unfold applyThemeMain
          split
          · exact h
          · exact h
        have h2 : TriplesOk (applyThemePalette conf (applyThemeMain conf s)) := by
          unfold applyThemePalette
          split
          · obtain ⟨a1, a2, a3, a4, a5, a6, a7, a8, a9, a10, a11, a12, a13,
              a14, a15, a16, a17, a18, a19, a20, a21, hpal⟩ := h1
            exact ⟨a1, a2, a3, a4, a5, a6, a7, a8, a9, a10, a11, a12, a13,
              a14, a15, a16, a17, a18, a19, a20, a21,
              foldl_setPalette_triples conf PALETTE_ROLES _ hpal⟩
          · exact h1
        unfold applyThemeGui
        split
        · obtain ⟨a1, a2, a3, a4, a5, a6, a7, a8, a9, a10, a11, a12, a13,
            a14, a15, a16, a17, a18, a19, a20, a21, hpal⟩ := h2
          exact ⟨loadColour_length conf "GUI" "treewordcount",
            loadColour_length conf "GUI" "statusnone",
            loadColour_length conf "GUI" "statusunsaved",
            loadColour_length conf "GUI" "statussaved",
            a5, a6, a7, a8, a9, a10, a11, a12, a13, a14, a15, a16, a17,
            a18, a19, a20, a21, hpal⟩
        · exact h2
  · unfold loadSyntaxConf
    split
    · exact h
    · dsimp only
      rename_i conf
      have h1 : TriplesOk (applySyntaxMain conf s) := by
        unfold applySyntaxMain
        split
        · exact h
        · exact h
      unfold applySyntaxColours
      split
      · obtain ⟨a1, a2, a3, a4, a5, a6, a7, a8, a9, a10, a11, a12, a13,
          a14, a15, a16, a17, a18, a19, a20, a21, hpal⟩ := h1
        exact ⟨a1, a2, a3, a4, a5,
          loadColour_length conf "Syntax" "background",
          loadColour_length conf "Syntax" "text",
          loadColour_length conf "Syntax" "link",
          loadColour_length conf "Syntax" "headertext",
          loadColour_length conf "Syntax" "headertag",
          loadColour_length conf "Syntax" "emphasis",
          loadColour_length conf "Syntax" "straightquotes",
          loadColour_length conf "Syntax" "doublequotes",
          loadColour_length conf "Syntax" "singlequotes",
          loadColour_length conf "Syntax" "hidden",
          loadColour_length conf "Syntax" "keyword",
          loadColour_length conf "Syntax" "value",
          loadColour_length conf "Syntax" "spellcheckline",
          loadColour_length conf "Syntax" "tagerror",
          loadColour_length conf "Syntax" "replacetag",
          loadColour_length conf "Syntax" "modifier", hpal⟩
      · exact h1

/-- Witness for C6: both loads succeed on well-formed configs and keep
every triple three channels wide. -/
theorem c6_witness :
    TriplesOk (loadTheme c6wenv initTheme).2 ∧
    TriplesOk (loadSyntaxConf (some c6wconf) initTheme).2 :=
  c6_triples c6wenv (some c6wconf) initTheme
    ⟨rfl, rfl, rfl, rfl, rfl, rfl, rfl, rfl, rfl, rfl, rfl, rfl, rfl, rfl,
     rfl, rfl, rfl, rfl, rfl, rfl, rfl,
     fun p hp => absurd hp (List.not_mem_nil p)⟩

/-- Counterexample for C6 as stated: a successful syntax load stores a
channel value of three hundred, outside the documented range. -/
theorem c6_counterexample :
    (loadSyntaxConf (some c6conf) initTheme).1 = true ∧
    (loadSyntaxConf (some c6conf) initTheme).2.colBack = [300, 0, 0] ∧
    ¬ (300 : Int) ≤ 255 := by decide

/-- C7: the help text computation of GuiTheme.updateTheme matches the
documented blend formula for all lightness inputs, yields a gray with
all three channels equal, and on background lightness nine tenths and
text lightness one tenth gives one hundred and fifty-eight on each
channel, which is also the rounded value the spec quotes. -/
theorem c7_help_text (backL textL : ℚ) :
    helpLightness backL textL = specHelpLum backL textL ∧
    helpTextColour backL textL =
      [pytrunc (255 * specHelpLum backL textL),
       pytrunc (255 * specHelpLum backL textL),
       pytrunc (255 * specHelpLum backL textL)] ∧
    helpTextColour (9/10) (1/10) = [158, 158, 158] ∧
    (158 : Int) = round ((255 : ℚ) * (62/100)) := by
  have heq : ∀ lb lt : ℚ, helpLightness lb lt = specHelpLum lb lt := by
    intro lb lt
    unfold helpLightness specHelpLum
    rcases le_or_lt lb lt with hle | hlt
    · rw [if_neg (not_lt.mpr hle), if_pos hle]
    · rw [if_pos hlt, if_neg (not_le.mpr hlt)]
  have h1 : helpLightness (9/10) (1/10) = 31/50 := by
    unfold helpLightness
    rw [if_pos (by norm_num : (9:ℚ)/10 > 1/10)]
    norm_num
  have h2 : pytrunc (255 * (31/50 : ℚ)) = 158 := by
    unfold pytrunc
    rw [if_pos (by norm_num : (0:ℚ) ≤ 255 * (31/50))]
    rw [show (255 : ℚ) * (31/50) = 1581/10 by norm_num]
    rw [Int.floor_eq_iff]
    constructor <;> norm_num
  refine ⟨heq backL textL, ?_, ?_, ?_⟩
  · unfold helpTextColour
    rw [heq backL textL]
    rfl
  · unfold helpTextColour
    rw [h1, h2]
    rfl
  · rw [round_eq]
    rw [show (255 : ℚ) * (62/100) + 1/2 = 1586/10 by norm_num]
    symm
    rw [Int.floor_eq_iff]
    constructor <;> norm_num

/-- C8: running listThemes over three candidate directories where the
second has a Main section without a name option yields three entries,
not two: the single ConfigParser instance still holds the name read from
the first candidate, so the nameless theme inherits the display name
Alpha even though its own config has no name option. -/
theorem c8_stale_theme_name_leak :
    (listThemesGui c8dirs initTheme).1.1 =
      [("atheme", "Alpha"), ("btheme", "Alpha"), ("ctheme", "Gamma")] ∧
    (listThemesGui c8dirs initTheme).1.1.length = 3 ∧
    hasOption [("Main", [("description", "no name option here")])]
      "Main" "name" = false := by decide

/-- Unfolding equation for one step of the listSyntax scan loop. -/
theorem scanSyntaxFiles_cons (cp : ConfigData) (file : String) (isF : Bool)
    (confR : Option ConfigData) (rest : List (String × Bool × Option ConfigData))
    (acc : List (String × String)) (alerts : Nat) :
    scanSyntaxFiles cp ((file, isF, confR) :: rest) acc alerts =
      if isF then
        match confR with
        | none => (true, acc, alerts + 1)
        | some nd =>
            let cp2 := mergeConfig cp nd
            let nm :=
              if hasSection cp2 "Main" && hasOption cp2 "Main" "name" then
                getOpt cp2 "Main" "name"
              else ""
            if file.length > 5 && nm ≠ "" then
              scanSyntaxFiles cp2 rest
                (acc ++ [(String.mk (file.data.take (file.data.length - 5)), nm)]) alerts
            else scanSyntaxFiles cp2 rest acc alerts
      else scanSyntaxFiles cp rest acc alerts := rfl

/-- Unfolding equation for one step of the listThemes scan loop. -/
theorem scanThemeDirs_cons (cp : ConfigData) (d : String)
    (confR : Option ConfigData) (rest : List (String × Option ConfigData))
    (acc : List (String × String)) (a : Nat) :
    scanThemeDirs cp ((d, confR) :: rest) acc a =
      match confR with
      | none => scanThemeDirs cp rest acc (a + 1)
      | some nd =>
          let cp2 := mergeConfig cp nd
          let nm :=
            if hasSection cp2 "Main" && hasOption cp2 "Main" "name" then
              getOpt cp2 "Main" "name"
            else ""
          if nm ≠ "" then scanThemeDirs cp2 rest (acc ++ [(d, nm)]) a
          else scanThemeDirs cp2 rest acc a := rfl

/-- When any scanned candidate file exists and fails to read, the
listSyntax scan loop aborts with result true and at least one alert. -/
theorem scanSyntax_abort (files : List (String × Bool × Option ConfigData)) :
    ∀ cp acc alerts, (∃ f ∈ files, f.2.1 = true ∧ f.2.2 = none) →
      (scanSyntaxFiles cp files acc alerts).1 = true ∧
      1 ≤ (scanSyntaxFiles cp files acc alerts).2.2 := by
  induction files with
  | nil =>
      intro cp acc alerts h
      simp at h
  | cons hd tl ih =>
      intro cp acc alerts h
      obtain ⟨file, isF, confR⟩ := hd
      rw [scanSyntaxFiles_cons]
      cases isF
      · have htl : ∃ f ∈ tl, f.2.1 = true ∧ f.2.2 = none := by
          rcases h with ⟨f, hmem, hprop⟩
          rcases List.mem_cons.mp hmem with h1 | h2
          · rw [h1] at hprop
            exact absurd hprop.1 (by simp)
          · exact ⟨f, h2, hprop⟩
        rw [if_neg (by simp)]
        exact ih _ _ _ htl
      · rw [if_pos rfl]
        rcases confR with _ | nd
        · exact ⟨rfl, Nat.le_add_left 1 alerts⟩
        · have htl : ∃ f ∈ tl, f.2.1 = true ∧ f.2.2 = none := by
            rcases h with ⟨f, hmem, hprop⟩
            rcases List.mem_cons.mp hmem with h1 | h2
            · rw [h1] at hprop
              exact absurd hprop.2 (by simp)
            · exact ⟨f, h2, hprop⟩
          dsimp only
          split_ifs <;> exact ih _ _ _ htl

/-- The entries gathered by the listThemes scan loop do not depend on
the running alert count. -/
theorem scanThemes_alerts_any (dirs : List (String × Option ConfigData)) :
    ∀ cp acc a b,
      (scanThemeDirs cp dirs acc a).1 = (scanThemeDirs cp dirs acc b).1 := by
  induction dirs with
  | nil =>
      intro cp acc a b
      rfl
  | cons hd tl ih =>
      intro cp acc a b
      obtain ⟨dir, confR⟩ := hd
      rw [scanThemeDirs_cons, scanThemeDirs_cons]
      rcases confR with _ | nd
      · exact ih _ _ _ _
      · dsimp only
        split_ifs <;> exact ih _ _ _ _

/-- A failing candidate in the listThemes scan is skipped: the gathered
entries are those of the same scan without it. -/
theorem scanThemes_skip (preD : List (String × Option ConfigData))
    (dir : String) (postD : List (String × Option ConfigData)) :
    ∀ cp acc a,
      (scanThemeDirs cp (preD ++ (dir, none) :: postD) acc a).1 =
      (scanThemeDirs cp (preD ++ postD) acc a).1 := by
  induction preD with
  | nil =>
      intro cp acc a
      rw [List.nil_append, List.nil_append, scanThemeDirs_cons]
      exact scanThemes_alerts_any postD cp acc (a + 1) a
  | cons hd tl ih =>
      intro cp acc a
      obtain ⟨d, confR⟩ := hd
      rw [List.cons_append, List.cons_append, scanThemeDirs_cons,
        scanThemeDirs_cons]
      rcases confR with _ | nd
      · exact ih _ _ _
      · dsimp only
        split_ifs <;> exact ih _ _ _

/-- C10: when any scanned candidate file raises on read, listSyntax
reports an alert and returns the empty list, aborting the whole scan;
listThemes in the same situation skips the failing candidate and returns
the same entries as a scan without it. -/
theorem c10_scan_failure_contrast
    (pre post : List (String × Bool × Option ConfigData)) (file : String)
    (s : GuiThemeState) (hs : s.syntaxList = [])
    (preD postD : List (String × Option ConfigData)) (dir : String)
    (sT : GuiThemeState) (hsT : sT.themeList = []) :
    (listSyntaxSchemes (pre ++ (file, true, none) :: post) s).1.1 = [] ∧
    1 ≤ (listSyntaxSchemes (pre ++ (file, true, none) :: post) s).1.2 ∧
    (listThemesGui (preD ++ (dir, none) :: postD) sT).1.1 =
      (listThemesGui (preD ++ postD) sT).1.1 := by
  have hmem : ∃ f ∈ pre ++ (file, true, none) :: post,
      f.2.1 = true ∧ f.2.2 = none :=
    ⟨(file, true, none),
     List.mem_append.mpr (Or.inr (List.mem_cons_self _ _)), rfl, rfl⟩
  have habort :=
    scanSyntax_abort (pre ++ (file, true, none) :: post) [] s.syntaxList 0 hmem
  refine ⟨?_, ?_, ?_⟩
  · unfold listSyntaxSchemes
    rw [if_pos (by rw [hs]; rfl)]
    rcases hscan : scanSyntaxFiles [] (pre ++ (file, true, none) :: post)
      s.syntaxList 0 with ⟨ab, acc2, al⟩
    rw [hscan] at habort
    rcases ab
    · exact absurd habort.1 (by simp)
    · rfl
  · unfold listSyntaxSchemes
    rw [if_pos (by rw [hs]; rfl)]
    rcases hscan : scanSyntaxFiles [] (pre ++ (file, true, none) :: post)
      s.syntaxList 0 with ⟨ab, acc2, al⟩
    rw [hscan] at habort
    rcases ab
    · exact absurd habort.1 (by simp)
    · exact habort.2
  · unfold listThemesGui
    rw [if_pos (by rw [hsT]; rfl), if_pos (by rw [hsT]; rfl)]
    dsimp only
    rw [scanThemes_skip preD dir postD [] sT.themeList 0]

/-- Witness for C10: a concrete failing syntax candidate after a valid
one empties the listing with an alert, while the same failing candidate
in a theme directory scan is simply skipped. -/
theorem c10_witness :
    (listSyntaxSchemes c10files initTheme).1.1 = [] ∧
    1 ≤ (listSyntaxSchemes c10files initTheme).1.2 ∧
    (listThemesGui c10dirs initTheme).1.1 =
      (listThemesGui [("atheme", some [("Main", [("name", "Alpha")])]),
        ("ctheme", some [("Main", [("name", "Gamma")])])] initTheme).1.1 :=
  c10_scan_failure_contrast
    [("default.conf", true, some [("Main", [("name", "Default")])])] []
    "broken.conf" initTheme rfl
    [("atheme", some [("Main", [("name", "Alpha")])])]
    [("ctheme", some [("Main", [("name", "Gamma")])])]
    "broken" initTheme rfl
